import Mathlib

/-!
Verification of the functional-options repository: five façades
(`1.simple.py`, `2.extend.py`, `3.config.py`, `4.functional.py`, `5.chains.py`)
that each build a header dictionary for a text-extraction request.

The header dictionary written by the Python code only ever uses the ten
fixed string keys below; Python `dict` equality is key/value-content
equality, so we model the dictionary as a structure with one `Option`
field per key (`none` = key absent).  Header values in the source are
booleans, integers or strings, modelled by `HVal`.
-/

/-- A header value as it appears in the Python dictionaries: the sources
store Python `bool`s (`True`), `int`s (timeout, angle) and `str`s
(`"true"`, `"text/plain"`). -/
inductive HVal where
  | b (x : Bool)
  | i (x : Int)
  | s (x : String)
deriving DecidableEq, Repr

/-- The header dictionary.  Each field is one of the string keys that the
Python sources ever write; `none` means the key is absent. -/
structure Headers where
  timeout : Option HVal := none
  rotate_angle : Option HVal := none
  detect_tables : Option HVal := none
  with_bounding_boxes : Option HVal := none
  ocr_with_text : Option HVal := none
  as_plain_text : Option HVal := none
  SkipOCR : Option HVal := none
  inline_ocr : Option HVal := none
  Accept : Option HVal := none
  with_ocr : Option HVal := none
deriving DecidableEq, Repr

namespace Simple

/-- `1.simple.py` `get_text`: headers handed to `requests.post`.
`SkipOCR = "true"` when `not with_ocr`; `Accept = "text/plain"` when
`as_plain_text`. -/
def get_text (as_plain_text : Bool := true) (with_ocr : Bool := false) : Headers :=
  { SkipOCR := if with_ocr then none else some (.s "true"),
    Accept := if as_plain_text then some (.s "text/plain") else none }

end Simple

namespace Extend

/-- Keyword arguments of `2.extend.py` `get_text`, with the Python
defaults. -/
structure Args where
  as_plain_text : Bool := true
  with_ocr : Bool := false
  timeout : Option Int := none
  with_bounding_boxes : Bool := false
  inline_ocr : Bool := false
  ocr_with_text : Bool := false
  rotate_angle : Int := 0
  detect_tables : Bool := false
deriving DecidableEq, Repr

/-- Timeout validation of `2.extend.py` lines 34-41: a supplied timeout
must be positive (the `isinstance` check is enforced by the `Int` type of
the embedding). -/
def checkTimeout (t : Option Int) : Except String Unit :=
  match t with
  | none => .ok ()
  | some v => if v ≤ 0 then .error "Timeout must be positive" else .ok ()

/-- Rotation validation of `2.extend.py` lines 46-47. -/
def checkRotate (d : Int) : Except String Unit :=
  if d = 0 ∨ d = 90 ∨ d = 180 ∨ d = 270 then .ok ()
  else .error "rotate_angle must be 0, 90, 180, or 270"

/-- The header dictionary built by `2.extend.py` lines 43-70, one field
per `headers[...] = ...` write (each key is written at most once, so the
final dictionary is this record).  Note: no `with_ocr` key is ever
written, children are written regardless of `with_ocr`, and both
`as_plain_text` and `Accept` are written when `as_plain_text`. -/
def headersOf (a : Args) : Headers :=
  { timeout := a.timeout.map fun t => HVal.i t,
    rotate_angle := if a.rotate_angle ≠ 0 then some (.i a.rotate_angle) else none,
    detect_tables := if a.detect_tables then some (.b true) else none,
    with_bounding_boxes := if a.with_bounding_boxes then some (.b true) else none,
    ocr_with_text := if a.ocr_with_text then some (.b true) else none,
    as_plain_text := if a.as_plain_text then some (.b true) else none,
    SkipOCR := if a.with_ocr then none else some (.s "true"),
    inline_ocr := if a.inline_ocr then some (.s "true") else none,
    Accept := if a.as_plain_text then some (.s "text/plain") else none }

/-- `2.extend.py` `get_text`: validation (timeout first, then rotation,
in source order) followed by the headers handed to `requests.post`. -/
def get_text (a : Args) : Except String Headers :=
  match checkTimeout a.timeout with
  | .error e => .error e
  | .ok _ =>
    match checkRotate a.rotate_angle with
    | .error e => .error e
    | .ok _ => .ok (headersOf a)

end Extend

namespace Config

/-- The pydantic model of `3.config.py` with its field defaults. -/
structure TextExtractionConfig where
  as_plain_text : Bool := true
  with_ocr : Bool := false
  timeout : Option Int := none
  with_bounding_boxes : Bool := false
  inline_ocr : Bool := false
  ocr_with_text : Bool := false
  rotate_angle : Int := 0
  detect_tables : Bool := false
deriving DecidableEq, Repr

/-- `3.config.py` `validate_timeout` field validator. -/
def validate_timeout (value : Option Int) : Except String (Option Int) :=
  match value with
  | none => .ok none
  | some v => if v ≤ 0 then .error "Timeout must be positive" else .ok (some v)

/-- `3.config.py` `validate_rotate_angle` field validator. -/
def validate_rotate_angle (value : Int) : Except String Int :=
  if value = 0 ∨ value = 90 ∨ value = 180 ∨ value = 270 then .ok value
  else .error "rotate_angle must be 0, 90, 180, or 270"

/-- Constructing a `TextExtractionConfig`: pydantic runs the two field
validators at construction time. -/
def mkConfig (as_plain_text : Bool) (with_ocr : Bool) (timeout : Option Int)
    (with_bounding_boxes : Bool) (inline_ocr : Bool) (ocr_with_text : Bool)
    (rotate_angle : Int) (detect_tables : Bool) :
    Except String TextExtractionConfig :=
  match validate_timeout timeout with
  | .error e => .error e
  | .ok t =>
    match validate_rotate_angle rotate_angle with
    | .error e => .error e
    | .ok r =>
      .ok ⟨as_plain_text, with_ocr, t, with_bounding_boxes, inline_ocr,
           ocr_with_text, r, detect_tables⟩

/-- `3.config.py` `to_headers`, one field per `headers[...] = ...` write.
Children `with_bounding_boxes`, `inline_ocr`, `detect_tables` are written
only inside the `if self.with_ocr` branch; `ocr_with_text`, `SkipOCR` and
`Accept` are never written by this method. -/
def TextExtractionConfig.to_headers (c : TextExtractionConfig) : Headers :=
  { timeout := c.timeout.map fun t => HVal.i t,
    rotate_angle := if c.rotate_angle ≠ 0 then some (.i c.rotate_angle) else none,
    with_ocr := if c.with_ocr then some (.b true) else none,
    with_bounding_boxes := if c.with_ocr && c.with_bounding_boxes then some (.b true) else none,
    inline_ocr := if c.with_ocr && c.inline_ocr then some (.b true) else none,
    detect_tables := if c.with_ocr && c.detect_tables then some (.b true) else none,
    as_plain_text := if c.as_plain_text then some (.b true) else none }

end Config

namespace Functional

/-- The four option constructors of `4.functional.py` `Options`, as data.
`AsPlainText`, `WithTimeout`, `WithRotation`, `WithOCR` with their
parameters. -/
inductive Opt where
  | AsPlainText
  | WithTimeout (seconds : Int)
  | WithRotation (degrees : Int)
  | WithOCR (inline : Bool) (with_bounding_boxes : Bool) (detect_tables : Bool)
deriving DecidableEq, Repr

/-- The closure each option applies to the headers dictionary, one field
per `opt[...] = ...` write in `4.functional.py` (a field not written keeps
its previous value). -/
def Opt.apply : Opt → Headers → Headers
  | .AsPlainText, h => { h with as_plain_text := some (.b true) }
  | .WithTimeout s, h => { h with timeout := some (.i s) }
  | .WithRotation d, h =>
      { h with rotate_angle := if d ≠ 0 then some (.i d) else h.rotate_angle }
  | .WithOCR inl bb dt, h =>
      { h with
        with_ocr := some (.b true),
        inline_ocr := if inl then some (.b true) else h.inline_ocr,
        with_bounding_boxes := if bb then some (.b true) else h.with_bounding_boxes,
        detect_tables := if dt then some (.b true) else h.detect_tables }

/-- `Options.WithTimeout` of `4.functional.py`: validation runs when the
option is constructed, before `get_text` is ever called (the `isinstance`
check is enforced by the `Int` type). -/
def WithTimeout (seconds : Int) : Except String Opt :=
  if seconds ≤ 0 then .error "Timeout must be positive"
  else .ok (.WithTimeout seconds)

/-- `Options.WithRotation` of `4.functional.py`: validation runs when the
option is constructed. -/
def WithRotation (degrees : Int) : Except String Opt :=
  if degrees = 0 ∨ degrees = 90 ∨ degrees = 180 ∨ degrees = 270 then
    .ok (.WithRotation degrees)
  else .error "Rotation must be one of 0, 90, 180, 270"

/-- `4.functional.py` `get_text`: starts from empty headers and applies
the already-constructed options left to right. -/
def get_text (options : List Opt) : Headers :=
  options.foldl (fun h o => o.apply h) {}

/-- Which setting an option writes, used to state order-independence for
collections without a repeated setting. -/
def Opt.kind : Opt → Nat
  | .AsPlainText => 0
  | .WithTimeout _ => 1
  | .WithRotation _ => 2
  | .WithOCR _ _ _ => 3

end Functional

namespace Chains

/-- The four builder methods of `5.chains.py` `Options`, as data: a chain
is the list of method calls made on the builder before `build()`. -/
inductive Meth where
  | as_plain_text
  | with_ocr (inline : Bool) (with_bounding_boxes : Bool) (detect_tables : Bool)
  | timeout (seconds : Int)
  | rotate (degrees : Int)
deriving DecidableEq, Repr

/-- The pure mutation each method performs on `self._options`, one field
per `self._options[...] = ...` write in `5.chains.py`. -/
def Meth.apply : Meth → Headers → Headers
  | .as_plain_text, h => { h with as_plain_text := some (.b true) }
  | .with_ocr inl bb dt, h =>
      { h with
        with_ocr := some (.b true),
        inline_ocr := if inl then some (.b true) else h.inline_ocr,
        with_bounding_boxes := if bb then some (.b true) else h.with_bounding_boxes,
        detect_tables := if dt then some (.b true) else h.detect_tables }
  | .timeout s, h => { h with timeout := some (.i s) }
  | .rotate d, h =>
      { h with rotate_angle := if d ≠ 0 then some (.i d) else h.rotate_angle }

/-- Whether a method call passes its own validation (`timeout` must be
positive, `rotate` must be one of 0, 90, 180, 270; the other methods do
not validate). -/
def Meth.ok : Meth → Bool
  | .as_plain_text => true
  | .with_ocr _ _ _ => true
  | .timeout s => decide (0 < s)
  | .rotate d => decide (d = 0 ∨ d = 90 ∨ d = 180 ∨ d = 270)

/-- One builder method call of `5.chains.py`: validation (raising) then
mutation of the accumulated dictionary. -/
def Meth.step : Meth → Headers → Except String Headers
  | .as_plain_text, h => .ok (Meth.apply .as_plain_text h)
  | .with_ocr inl bb dt, h => .ok (Meth.apply (.with_ocr inl bb dt) h)
  | .timeout s, h =>
      if s ≤ 0 then .error "Timeout must be positive"
      else .ok (Meth.apply (.timeout s) h)
  | .rotate d, h =>
      if d = 0 ∨ d = 90 ∨ d = 180 ∨ d = 270 then .ok (Meth.apply (.rotate d) h)
      else .error "Rotation must be one of 0, 90, 180, 270"

/-- Running a chain `Options().m1()...mk().build()`: fold the method calls
over the initially empty `_options` dictionary; `build()` returns the
accumulated dictionary, which `5.chains.py` `get_text` hands to
`requests.post`. -/
def build (ms : List Meth) : Except String Headers :=
  ms.foldlM (fun h m => m.step h) ({} : Headers)

/-- Which setting a builder method writes. -/
def Meth.kind : Meth → Nat
  | .as_plain_text => 0
  | .with_ocr _ _ _ => 3
  | .timeout _ => 1
  | .rotate _ => 2

end Chains

/-- Modelled from the spec: the CanonicalHeaderSet the spec asserts every
façade produces for the scenario "OCR enabled, bounding boxes on, rotate
90, timeout 30", namely
`\x7bwith_ocr:true, with_bounding_boxes:true, rotate_angle:90, timeout:30,
Accept:"text/plain"\x7d`. -/
def specEquivalenceScenario : Headers :=
  { with_ocr := some (.b true),
    with_bounding_boxes := some (.b true),
    rotate_angle := some (.i 90),
    timeout := some (.i 30),
    Accept := some (.s "text/plain") }

/-- Modelled from the spec: the canonical output the spec asserts for the
all-defaults scenario, `\x7bAccept:"text/plain", SkipOCR:true\x7d`. -/
def specDefaultScenario : Headers :=
  { Accept := some (.s "text/plain"),
    SkipOCR := some (.s "true") }

namespace Functional

/-- Options that write different settings commute as transformations of
the headers dictionary. -/
theorem opt_apply_comm (o1 o2 : Opt) (hk : o1.kind ≠ o2.kind) (h : Headers) :
    o2.apply (o1.apply h) = o1.apply (o2.apply h) := by
  cases o1 <;> cases o2 <;> first | rfl | exact absurd rfl hk

/-- A predicate preserved by every option application holds of the result
of `get_text`-style folds. -/
theorem foldl_inv (P : Headers → Prop) (hstep : ∀ h o, P h → P (Opt.apply o h)) :
    ∀ (l : List Opt) (init : Headers), P init → P (l.foldl (fun h o => o.apply h) init) := by
  intro l
  induction l with
  | nil => intro init h0; exact h0
  | cons o l ih => intro init h0; exact ih _ (hstep init o h0)

end Functional

namespace Chains

/-- Builder methods that write different settings commute. -/
theorem meth_apply_comm (m1 m2 : Meth) (hk : m1.kind ≠ m2.kind) (h : Headers) :
    m2.apply (m1.apply h) = m1.apply (m2.apply h) := by
  cases m1 <;> cases m2 <;> first | rfl | exact absurd rfl hk

/-- A successful builder step is exactly the pure mutation. -/
theorem step_ok_eq {m : Meth} {h h' : Headers} (hs : m.step h = .ok h') :
    h' = m.apply h := by
  cases m <;> simp [Meth.step] at hs <;> try exact hs.symm
  case timeout s =>
    split at hs
    · exact absurd hs (by simp)
    · simpa using hs.symm
  case rotate d =>
    split at hs
    · simpa using hs.symm
    · exact absurd hs (by simp)

/-- A method whose validation passes steps to its pure mutation. -/
theorem step_of_ok {m : Meth} (hm : m.ok = true) (h : Headers) :
    m.step h = .ok (m.apply h) := by
  cases m <;> simp [Meth.ok] at hm <;> simp [Meth.step]
  case timeout s => omega
  case rotate d => omega

/-- A chain all of whose method calls validate builds the pure fold of
the mutations. -/
theorem foldlM_ok (ms : List Meth) (hok : ∀ m ∈ ms, m.ok = true) (init : Headers) :
    ms.foldlM (fun h m => m.step h) init = .ok (ms.foldl (fun h m => m.apply h) init) := by
  induction ms generalizing init with
  | nil => rfl
  | cons m ms ih =>
    have hm := hok m (by simp)
    simp only [List.foldlM, List.foldl]
    rw [step_of_ok hm]
    exact ih (fun m' hm' => hok m' (by simp [hm'])) _

/-- A predicate preserved by every method mutation holds of any
successfully built chain result. -/
theorem foldlM_inv (P : Headers → Prop) (hstep : ∀ h m, P h → P (Meth.apply m h)) :
    ∀ (ms : List Meth) (init h : Headers),
      ms.foldlM (fun h m => m.step h) init = .ok h → P init → P h := by
  intro ms
  induction ms with
  | nil =>
    intro init h hrun h0
    simp only [List.foldlM] at hrun
    cases hrun
    exact h0
  | cons m ms ih =>
    intro init h hrun h0
    simp only [List.foldlM] at hrun
    cases hstep' : m.step init with
    | error e => rw [hstep'] at hrun; exact Except.noConfusion hrun
    | ok h' =>
      rw [hstep'] at hrun
      exact ih h' h hrun (step_ok_eq hstep' ▸ hstep init m h0)
end Chains

/-- Helper for reasoning about `2.extend.py`: a successful call returns
exactly the headers record of its arguments. -/
theorem Extend.get_text_ok {a : Extend.Args} {m : Headers}
    (hm : Extend.get_text a = .ok m) : m = Extend.headersOf a := by
  unfold Extend.get_text at hm
  split at hm
  · exact Except.noConfusion hm
  · split at hm
    · exact Except.noConfusion hm
    · exact (Except.ok.inj hm).symm

/-- Claim C1, counterexample: for the input "OCR enabled, bounding boxes
on, rotate 90, timeout 30" the façades do NOT all produce the spec's map
`specEquivalenceScenario`.  The extend façade produces a map with an
`as_plain_text` key and no `with_ocr` key; the config façade produces a
map with `as_plain_text` and no `Accept`; and the two maps differ from
each other as well. -/
theorem c1_counterexample :
    Extend.get_text
        { with_ocr := true, timeout := some 30, with_bounding_boxes := true, rotate_angle := 90 } =
      .ok { timeout := some (.i 30), rotate_angle := some (.i 90),
            with_bounding_boxes := some (.b true), as_plain_text := some (.b true),
            Accept := some (.s "text/plain") } ∧
    ({ timeout := some (.i 30), rotate_angle := some (.i 90),
       with_bounding_boxes := some (.b true), as_plain_text := some (.b true),
       Accept := some (.s "text/plain") } : Headers) ≠ specEquivalenceScenario ∧
    Config.TextExtractionConfig.to_headers
        { with_ocr := true, timeout := some 30, with_bounding_boxes := true, rotate_angle := 90 } ≠
      specEquivalenceScenario ∧
    Config.TextExtractionConfig.to_headers
        { with_ocr := true, timeout := some 30, with_bounding_boxes := true, rotate_angle := 90 } ≠
      ({ timeout := some (.i 30), rotate_angle := some (.i 90),
         with_bounding_boxes := some (.b true), as_plain_text := some (.b true),
         Accept := some (.s "text/plain") } : Headers) :=
  ⟨rfl, by decide, by decide, by decide⟩

/-- Claim C1, amended: for the input "OCR enabled, bounding boxes on,
rotate 90, timeout 30" the four façades produce these four (pairwise
different, and all different from the spec's claimed map) header maps:
extend adds `as_plain_text:true` and omits `with_ocr`; config adds
`as_plain_text:true` and omits `Accept`; functional omits both; the
chained builder additionally sets `inline_ocr:true` because its
`with_ocr` method defaults `inline` to true. -/
theorem c1_amended :
    Extend.get_text
        { with_ocr := true, timeout := some 30, with_bounding_boxes := true, rotate_angle := 90 } =
      .ok { timeout := some (.i 30), rotate_angle := some (.i 90),
            with_bounding_boxes := some (.b true), as_plain_text := some (.b true),
            Accept := some (.s "text/plain") } ∧
    Config.TextExtractionConfig.to_headers
        { with_ocr := true, timeout := some 30, with_bounding_boxes := true, rotate_angle := 90 } =
      { timeout := some (.i 30), rotate_angle := some (.i 90), with_ocr := some (.b true),
        with_bounding_boxes := some (.b true), as_plain_text := some (.b true) } ∧
    Functional.get_text [.WithTimeout 30, .WithOCR false true false, .WithRotation 90] =
      { timeout := some (.i 30), with_ocr := some (.b true),
        with_bounding_boxes := some (.b true), rotate_angle := some (.i 90) } ∧
    Chains.build [.with_ocr true true false, .timeout 30, .rotate 90] =
      .ok { with_ocr := some (.b true), inline_ocr := some (.b true),
            with_bounding_boxes := some (.b true), timeout := some (.i 30),
            rotate_angle := some (.i 90) } :=
  ⟨rfl, rfl, by decide, rfl⟩

/-- Claim C2, counterexample: the extend façade with `with_ocr=false`
(default) and all four child settings requested emits every one of the
four child keys, so the claim fails there. -/
theorem c2_counterexample :
    Extend.get_text
        { detect_tables := true, with_bounding_boxes := true, inline_ocr := true,
          ocr_with_text := true } =
      .ok { detect_tables := some (.b true), with_bounding_boxes := some (.b true),
            ocr_with_text := some (.b true), inline_ocr := some (.s "true"),
            as_plain_text := some (.b true), SkipOCR := some (.s "true"),
            Accept := some (.s "text/plain") } := rfl

/-- Claim C2, amended: child suppression holds in the config façade (a
config with `with_ocr=false` emits none of the four child keys), and in
the functional and chained façades (a result without the `with_ocr` key
carries none of the four child keys); the extend façade is the exception
and emits child settings regardless of `with_ocr`. -/
theorem c2_amended :
    (∀ c : Config.TextExtractionConfig, c.with_ocr = false →
      c.to_headers.with_bounding_boxes = none ∧ c.to_headers.inline_ocr = none ∧
      c.to_headers.ocr_with_text = none ∧ c.to_headers.detect_tables = none) ∧
    (∀ l : List Functional.Opt, (Functional.get_text l).with_ocr = none →
      (Functional.get_text l).with_bounding_boxes = none ∧
      (Functional.get_text l).inline_ocr = none ∧
      (Functional.get_text l).ocr_with_text = none ∧
      (Functional.get_text l).detect_tables = none) ∧
    (∀ (ms : List Chains.Meth) (h : Headers), Chains.build ms = .ok h → h.with_ocr = none →
      h.with_bounding_boxes = none ∧ h.inline_ocr = none ∧
      h.ocr_with_text = none ∧ h.detect_tables = none) := by
  refine ⟨?_, ?_, ?_⟩
  · intro c hc
    simp [Config.TextExtractionConfig.to_headers, hc]
  · intro l
    exact Functional.foldl_inv
      (fun h => h.with_ocr = none →
        h.with_bounding_boxes = none ∧ h.inline_ocr = none ∧
        h.ocr_with_text = none ∧ h.detect_tables = none)
      (by
        intro h o hP
        cases o with
        | AsPlainText => exact hP
        | WithTimeout s => exact hP
        | WithRotation d => exact hP
        | WithOCR i b t => intro hc; exact Option.noConfusion hc)
      l {} (fun _ => ⟨rfl, rfl, rfl, rfl⟩)
  · intro ms h hrun
    exact Chains.foldlM_inv
      (fun h => h.with_ocr = none →
        h.with_bounding_boxes = none ∧ h.inline_ocr = none ∧
        h.ocr_with_text = none ∧ h.detect_tables = none)
      (by
        intro h m hP
        cases m with
        | as_plain_text => exact hP
        | with_ocr i b t => intro hc; exact Option.noConfusion hc
        | timeout s => exact hP
        | rotate d => exact hP)
      ms {} h hrun (fun _ => ⟨rfl, rfl, rfl, rfl⟩)

/-- Claim C2, witness: the amended claim at a concrete config with
`with_ocr=false` and two child settings requested. -/
theorem c2_witness :
    ({ detect_tables := true, with_bounding_boxes := true } :
        Config.TextExtractionConfig).with_ocr = false ∧
    (({ detect_tables := true, with_bounding_boxes := true } :
        Config.TextExtractionConfig).to_headers.with_bounding_boxes = none ∧
     ({ detect_tables := true, with_bounding_boxes := true } :
        Config.TextExtractionConfig).to_headers.inline_ocr = none ∧
     ({ detect_tables := true, with_bounding_boxes := true } :
        Config.TextExtractionConfig).to_headers.ocr_with_text = none ∧
     ({ detect_tables := true, with_bounding_boxes := true } :
        Config.TextExtractionConfig).to_headers.detect_tables = none) :=
  ⟨rfl, c2_amended.1 { detect_tables := true, with_bounding_boxes := true } rfl⟩

/-- Claim C3: the code emits `as_plain_text:true` although `true` is that
setting's declared default (the all-defaults config already produces it,
in both the config façade, whose own comment says it only includes
non-default values, and the extend façade), contradicting the claim that
no setting at its default value appears in the output. -/
theorem c3_default_value_emitted :
    ({} : Config.TextExtractionConfig).as_plain_text = true ∧
    ({} : Config.TextExtractionConfig).to_headers.as_plain_text = some (.b true) ∧
    Extend.get_text {} =
      .ok { as_plain_text := some (.b true), SkipOCR := some (.s "true"),
            Accept := some (.s "text/plain") } :=
  ⟨rfl, rfl, rfl⟩

/-- Claim C4, counterexample: the extend façade with `with_ocr=true`, no
sub-options and `as_plain_text=false` serializes to the EMPTY map, not to
the claimed one-entry map with `with_ocr:true`: the extend façade never
writes a `with_ocr` key at all. -/
theorem c4_counterexample :
    ({ as_plain_text := false, with_ocr := true } : Extend.Args).with_ocr = true ∧
    Extend.get_text { as_plain_text := false, with_ocr := true } = .ok ({} : Headers) :=
  ⟨rfl, rfl⟩

/-- Claim C4, amended: `SkipOCR:"true"` is present iff `with_ocr=false`
in the simple and extend façades (which never emit a `with_ocr` key),
while `with_ocr:true` is present iff `with_ocr=true` in the config façade
(which never emits `SkipOCR`); the scenario (`with_ocr=true`, no
sub-options, `as_plain_text=false`) yields exactly the one-entry map with
`with_ocr:true` in the config façade only. -/
theorem c4_amended :
    (∀ apt wo : Bool, (Simple.get_text apt wo).SkipOCR = some (.s "true") ↔ wo = false) ∧
    (∀ (a : Extend.Args) (m : Headers), Extend.get_text a = .ok m →
      (m.SkipOCR = some (.s "true") ↔ a.with_ocr = false) ∧ m.with_ocr = none) ∧
    (∀ c : Config.TextExtractionConfig,
      (c.to_headers.with_ocr = some (.b true) ↔ c.with_ocr = true) ∧
      c.to_headers.SkipOCR = none) ∧
    Config.TextExtractionConfig.to_headers { as_plain_text := false, with_ocr := true } =
      { with_ocr := some (.b true) } := by
  refine ⟨?_, ?_, ?_, rfl⟩
  · intro apt wo
    cases wo <;> simp [Simple.get_text]
  · intro a m hm
    rw [Extend.get_text_ok hm]
    cases hw : a.with_ocr <;> simp [Extend.headersOf, hw]
  · intro c
    cases hw : c.with_ocr <;> simp [Config.TextExtractionConfig.to_headers, hw]

/-- Claim C4, witness: the amended claim's extend conjunct at the
all-defaults arguments, whose produced map is computed by `rfl`. -/
theorem c4_witness :
    (({ as_plain_text := some (.b true), SkipOCR := some (.s "true"),
        Accept := some (.s "text/plain") } : Headers).SkipOCR = some (.s "true") ↔
      ({} : Extend.Args).with_ocr = false) ∧
    ({ as_plain_text := some (.b true), SkipOCR := some (.s "true"),
       Accept := some (.s "text/plain") } : Headers).with_ocr = none :=
  c4_amended.2.1 {}
    { as_plain_text := some (.b true), SkipOCR := some (.s "true"),
      Accept := some (.s "text/plain") } rfl

/-- Claim C5, counterexample: with all defaults the config façade and the
functional façade do not produce the spec's map `specDefaultScenario`
(the config façade yields only `as_plain_text:true`; the functional
façade yields the empty map). -/
theorem c5_counterexample :
    ({} : Config.TextExtractionConfig).to_headers ≠ specDefaultScenario ∧
    Functional.get_text [] ≠ specDefaultScenario :=
  ⟨by decide, by decide⟩

/-- Claim C5, amended: with no settings supplied, only the simple façade
produces exactly the claimed map; the extend façade additionally emits
`as_plain_text:true`, the config façade yields exactly
`as_plain_text:true` (no `Accept`, no `SkipOCR`), and the functional and
chained façades yield the empty map. -/
theorem c5_amended :
    Simple.get_text true false = specDefaultScenario ∧
    Extend.get_text {} =
      .ok { as_plain_text := some (.b true), SkipOCR := some (.s "true"),
            Accept := some (.s "text/plain") } ∧
    ({} : Config.TextExtractionConfig).to_headers = { as_plain_text := some (.b true) } ∧
    Functional.get_text [] = ({} : Headers) ∧
    Chains.build [] = .ok ({} : Headers) :=
  ⟨rfl, rfl, rfl, rfl, rfl⟩

/-- Claim C6: in every façade a non-positive timeout fails validation
with "Timeout must be positive" and a positive timeout succeeds with a
`timeout` header bound to exactly that integer (the non-integer arm of
the claim is enforced by the `Int` type of the embedding, mirroring the
`isinstance` checks). -/
theorem c6_timeout_validation :
    (∀ (a : Extend.Args) (t : Int), a.timeout = some t → t ≤ 0 →
      Extend.get_text a = .error "Timeout must be positive") ∧
    (∀ (a : Extend.Args) (t : Int), a.timeout = some t → 0 < t →
      (a.rotate_angle = 0 ∨ a.rotate_angle = 90 ∨ a.rotate_angle = 180 ∨ a.rotate_angle = 270) →
      Extend.get_text a = .ok (Extend.headersOf a) ∧
      (Extend.headersOf a).timeout = some (.i t)) ∧
    (∀ t : Int,
      (t ≤ 0 → Config.validate_timeout (some t) = .error "Timeout must be positive") ∧
      (0 < t → Config.validate_timeout (some t) = .ok (some t))) ∧
    (∀ (c : Config.TextExtractionConfig) (t : Int), c.timeout = some t →
      c.to_headers.timeout = some (.i t)) ∧
    (∀ s : Int,
      (s ≤ 0 → Functional.WithTimeout s = .error "Timeout must be positive") ∧
      (0 < s → Functional.WithTimeout s = .ok (.WithTimeout s)) ∧
      (∀ h : Headers, ((Functional.Opt.WithTimeout s).apply h).timeout = some (.i s))) ∧
    (∀ (s : Int) (h : Headers),
      (s ≤ 0 → Chains.Meth.step (.timeout s) h = .error "Timeout must be positive") ∧
      (0 < s → Chains.Meth.step (.timeout s) h = .ok { h with timeout := some (.i s) })) := by
  refine ⟨?_, ?_, ?_, ?_, ?_, ?_⟩
  · intro a t ht hle
    simp [Extend.get_text, Extend.checkTimeout, ht, hle]
  · intro a t ht hpos hrot
    have hnle : ¬ t ≤ 0 := by omega
    refine ⟨?_, ?_⟩
    · simp [Extend.get_text, Extend.checkTimeout, Extend.checkRotate, ht, hnle, hrot]
    · simp [Extend.headersOf, ht]
  · intro t
    constructor
    · intro hle; simp [Config.validate_timeout, hle]
    · intro hpos; simp [Config.validate_timeout, show ¬ t ≤ 0 by omega]
  · intro c t ht
    simp [Config.TextExtractionConfig.to_headers, ht]
  · intro s
    refine ⟨?_, ?_, fun h => rfl⟩
    · intro hle; simp [Functional.WithTimeout, hle]
    · intro hpos; simp [Functional.WithTimeout, show ¬ s ≤ 0 by omega]
  · intro s h
    constructor
    · intro hle; simp [Chains.Meth.step, hle]
    · intro hpos; simp [Chains.Meth.step, show ¬ s ≤ 0 by omega]; rfl

/-- Claim C6, witness: timeout -5 is rejected and timeout 30 is accepted
by the functional façade's option constructor. -/
theorem c6_witness :
    ((-5 : Int) ≤ 0 ∧ Functional.WithTimeout (-5) = .error "Timeout must be positive") ∧
    (0 < (30 : Int) ∧ Functional.WithTimeout 30 = .ok (.WithTimeout 30)) :=
  ⟨⟨by decide, (c6_timeout_validation.2.2.2.2.1 (-5)).1 (by decide)⟩,
   ⟨by decide, (c6_timeout_validation.2.2.2.2.1 30).2.1 (by decide)⟩⟩

/-- Claim C7: in every façade a rotation outside 0, 90, 180, 270 fails
validation (never clamped), rotation 0 produces no `rotate_angle`
header, and a non-zero rotation produces `rotate_angle` bound to that
value verbatim. -/
theorem c7_rotation_validation :
    (∀ a : Extend.Args,
      ¬(a.rotate_angle = 0 ∨ a.rotate_angle = 90 ∨ a.rotate_angle = 180 ∨ a.rotate_angle = 270) →
      ∃ e, Extend.get_text a = .error e) ∧
    (∀ (a : Extend.Args) (m : Headers), Extend.get_text a = .ok m →
      (a.rotate_angle = 0 → m.rotate_angle = none) ∧
      (a.rotate_angle ≠ 0 → m.rotate_angle = some (.i a.rotate_angle))) ∧
    (∀ d : Int, ¬(d = 0 ∨ d = 90 ∨ d = 180 ∨ d = 270) →
      Config.validate_rotate_angle d = .error "rotate_angle must be 0, 90, 180, or 270") ∧
    (∀ c : Config.TextExtractionConfig,
      (c.rotate_angle = 0 → c.to_headers.rotate_angle = none) ∧
      (c.rotate_angle ≠ 0 → c.to_headers.rotate_angle = some (.i c.rotate_angle))) ∧
    (∀ d : Int,
      (¬(d = 0 ∨ d = 90 ∨ d = 180 ∨ d = 270) →
        Functional.WithRotation d = .error "Rotation must be one of 0, 90, 180, 270") ∧
      (∀ h : Headers, (Functional.Opt.WithRotation 0).apply h = h) ∧
      (d ≠ 0 → ∀ h : Headers,
        ((Functional.Opt.WithRotation d).apply h).rotate_angle = some (.i d))) ∧
    (∀ (d : Int) (h : Headers),
      (¬(d = 0 ∨ d = 90 ∨ d = 180 ∨ d = 270) →
        Chains.Meth.step (.rotate d) h = .error "Rotation must be one of 0, 90, 180, 270") ∧
      Chains.Meth.step (.rotate 0) h = .ok h) := by
  refine ⟨?_, ?_, ?_, ?_, ?_, ?_⟩
  · intro a hrot
    cases hct : Extend.checkTimeout a.timeout with
    | error e => exact ⟨e, by unfold Extend.get_text; rw [hct]⟩
    | ok u =>
      exact ⟨"rotate_angle must be 0, 90, 180, or 270",
        by unfold Extend.get_text; rw [hct]; simp [Extend.checkRotate, hrot]⟩
  · intro a m hm
    rw [Extend.get_text_ok hm]
    constructor
    · intro h0; simp [Extend.headersOf, h0]
    · intro hne; simp [Extend.headersOf, hne]
  · intro d hrot
    simp [Config.validate_rotate_angle, hrot]
  · intro c
    constructor
    · intro h0; simp [Config.TextExtractionConfig.to_headers, h0]
    · intro hne; simp [Config.TextExtractionConfig.to_headers, hne]
  · intro d
    refine ⟨?_, fun h => rfl, ?_⟩
    · intro hrot; simp [Functional.WithRotation, hrot]
    · intro hne h; simp [Functional.Opt.apply, hne]
  · intro d h
    constructor
    · intro hrot; simp [Chains.Meth.step, hrot]
    · rfl

/-- Claim C7, witness: rotation 45 is rejected by the functional façade's
option constructor and rotation 90 produces the header verbatim. -/
theorem c7_witness :
    (¬((45 : Int) = 0 ∨ (45 : Int) = 90 ∨ (45 : Int) = 180 ∨ (45 : Int) = 270) ∧
      Functional.WithRotation 45 = .error "Rotation must be one of 0, 90, 180, 270") ∧
    ((90 : Int) ≠ 0 ∧
      ((Functional.Opt.WithRotation 90).apply {}).rotate_angle = some (.i 90)) :=
  ⟨⟨by decide, (c7_rotation_validation.2.2.2.2.1 45).1 (by decide)⟩,
   ⟨by decide, (c7_rotation_validation.2.2.2.2.1 90).2.2 (by decide) {}⟩⟩

/-- Claim C8, counterexample: permuting the same collection of options
can change the final header map: two `WithTimeout` options applied in the
two orders give different `timeout` values. -/
theorem c8_counterexample :
    [Functional.Opt.WithTimeout 1, Functional.Opt.WithTimeout 2].Perm
      [Functional.Opt.WithTimeout 2, Functional.Opt.WithTimeout 1] ∧
    Functional.get_text [.WithTimeout 1, .WithTimeout 2] ≠
      Functional.get_text [.WithTimeout 2, .WithTimeout 1] :=
  ⟨List.Perm.swap _ _ _, by decide⟩

/-- Claim C8, amended: in the functional and chained façades the final
header map is permutation-invariant for any collection in which each
setting appears at most once (for the chained façade, provided every call
passes its validation); OCR sub-options are only suppliable through the
`WithOCR`/`with_ocr` call itself, which also enables the parent, so the
before/after concern cannot arise.  With a repeated setting, order
matters. -/
theorem c8_amended :
    (∀ l₁ l₂ : List Functional.Opt, l₁.Pairwise (fun a b => a.kind ≠ b.kind) →
      l₁.Perm l₂ → Functional.get_text l₁ = Functional.get_text l₂) ∧
    (∀ ms₁ ms₂ : List Chains.Meth, ms₁.Pairwise (fun a b => a.kind ≠ b.kind) →
      ms₁.Perm ms₂ → (∀ m ∈ ms₁, m.ok = true) → Chains.build ms₁ = Chains.build ms₂) := by
  constructor
  · intro l₁ l₂ hp hperm
    unfold Functional.get_text
    refine hperm.foldl_eq' ?_ ({} : Headers)
    intro x hx y hy z
    rcases eq_or_ne x y with rfl | hxy
    · rfl
    · exact Functional.opt_apply_comm x y
        (hp.forall (fun a b hab => hab ∘ Eq.symm) hx hy hxy) z
  · intro ms₁ ms₂ hp hperm hok
    have hok₂ : ∀ m ∈ ms₂, m.ok = true := fun m hm => hok m (hperm.mem_iff.mpr hm)
    unfold Chains.build
    rw [Chains.foldlM_ok ms₁ hok, Chains.foldlM_ok ms₂ hok₂]
    refine congrArg Except.ok (hperm.foldl_eq' ?_ ({} : Headers))
    intro x hx y hy z
    rcases eq_or_ne x y with rfl | hxy
    · rfl
    · exact Chains.meth_apply_comm x y
        (hp.forall (fun a b hab => hab ∘ Eq.symm) hx hy hxy) z

/-- Claim C8, witness: a timeout option and a plain-text option swapped
give the same map. -/
theorem c8_witness :
    [Functional.Opt.WithTimeout 5, Functional.Opt.AsPlainText].Pairwise
      (fun a b => a.kind ≠ b.kind) ∧
    [Functional.Opt.WithTimeout 5, Functional.Opt.AsPlainText].Perm
      [Functional.Opt.AsPlainText, Functional.Opt.WithTimeout 5] ∧
    Functional.get_text [.WithTimeout 5, .AsPlainText] =
      Functional.get_text [.AsPlainText, .WithTimeout 5] :=
  ⟨by decide, List.Perm.swap _ _ _,
    c8_amended.1 _ _ (by decide) (List.Perm.swap _ _ _)⟩

/-- Claim C9, counterexample: repeated application follows no single
policy: repeated `WithTimeout`/`timeout` is last-write-wins with no
error, but a later `WithRotation 0` (the default, meaning "no rotation
header") after `WithRotation 90` neither raises an error nor wins: the
map keeps `rotate_angle:90` rather than matching what `WithRotation 0`
alone produces. -/
theorem c9_counterexample :
    Functional.get_text [.WithTimeout 1, .WithTimeout 2] = { timeout := some (.i 2) } ∧
    Chains.build [.timeout 1, .timeout 2] = .ok { timeout := some (.i 2) } ∧
    Functional.get_text [.WithRotation 90, .WithRotation 0] =
      { rotate_angle := some (.i 90) } ∧
    Functional.get_text [.WithRotation 0] = ({} : Headers) ∧
    Chains.build [.rotate 90, .rotate 0] = .ok { rotate_angle := some (.i 90) } ∧
    Functional.get_text [.WithRotation 90, .WithRotation 0] ≠
      Functional.get_text [.WithRotation 0] :=
  ⟨rfl, rfl, by decide, rfl, rfl, by decide⟩

/-- Claim C9, amended: repeated application never raises a conflict
error, and a later application overwrites only the keys it actually
writes: the last `WithTimeout`/`timeout` always wins, the last non-zero
`WithRotation` wins, but `WithRotation 0`/`rotate 0` is a no-op that does
not reset a previously set rotation — so the policy is last-write-wins
only for writes that materialize. -/
theorem c9_amended :
    (∀ (l : List Functional.Opt) (t : Int),
      (Functional.get_text (l ++ [.WithTimeout t])).timeout = some (.i t)) ∧
    (∀ (l : List Functional.Opt) (d : Int), d ≠ 0 →
      (Functional.get_text (l ++ [.WithRotation d])).rotate_angle = some (.i d)) ∧
    (∀ l : List Functional.Opt,
      Functional.get_text (l ++ [.WithRotation 0]) = Functional.get_text l) ∧
    (∀ h : Headers, Chains.Meth.step (.rotate 0) h = .ok h) ∧
    (∀ (h : Headers) (s : Int), 0 < s →
      Chains.Meth.step (.timeout s) h = .ok { h with timeout := some (.i s) }) := by
  refine ⟨?_, ?_, ?_, fun h => rfl, ?_⟩
  · intro l t
    rw [Functional.get_text, List.foldl_append]
    rfl
  · intro l d hd
    rw [Functional.get_text, List.foldl_append]
    simp [Functional.Opt.apply, hd]
  · intro l
    rw [Functional.get_text, Functional.get_text, List.foldl_append]
    rfl
  · intro h s hs
    simp [Chains.Meth.step, show ¬ s ≤ 0 by omega]
    rfl

/-- Claim C9, witness: a later rotation of 180 overwrites an earlier 90. -/
theorem c9_witness :
    (180 : Int) ≠ 0 ∧
    (Functional.get_text ([.WithRotation 90] ++ [.WithRotation 180])).rotate_angle =
      some (.i 180) :=
  ⟨by decide, c9_amended.2.1 [.WithRotation 90] 180 (by decide)⟩

/-- Claim C10: the chained builder's `with_ocr()` with its default
arguments (`inline=True`) yields a map with both `with_ocr:true` and
`inline_ocr:true`, while the functional `WithOCR()` with its default
arguments (all False) yields only `with_ocr:true`. -/
theorem c10_builder_ocr_inline_default :
    Chains.build [.with_ocr true false false] =
      .ok { with_ocr := some (.b true), inline_ocr := some (.b true) } ∧
    Functional.get_text [.WithOCR false false false] = { with_ocr := some (.b true) } :=
  ⟨rfl, rfl⟩
